import Mathlib

/-!
Shallow embedding of the snow Noise-protocol builder (src/src/noise.rs):
the CryptoResolver interface, the DefaultResolver, and the NoiseBuilder
with its setters and its build / build_initiator / build_responder
terminal operations.  External collaborators that live outside the given
source file (the parsed protocol parameters, the crypto trait objects and
the HandshakeState constructor) are modelled from the spec, each marked
in its doc comment.
-/

/-- Raw byte strings: Rust slices and vectors of u8 are lists of naturals. -/
abbrev Bytes := List Nat

/-- The error type returned by the builder (NoiseError::InitError in the
source carries a static message string). -/
inductive NoiseError where
  | InitError (msg : String)
deriving DecidableEq

/-- Modelled from the spec: the DH-curve choice type from crypto_types is
not under src.  The default resolver in the source matches Curve25519 and
has a catch-all arm returning None for every other curve, so the type has
at least one further variant; Curve448 stands for such another curve. -/
inductive DHChoice where
  | Curve25519
  | Curve448
deriving DecidableEq

/-- The hash choices: exactly the four variants matched exhaustively by
DefaultResolver::resolve_hash in the source. -/
inductive HashChoice where
  | SHA256
  | SHA512
  | Blake2s
  | Blake2b
deriving DecidableEq

/-- The AEAD cipher choices: exactly the two variants matched exhaustively
by DefaultResolver::resolve_cipher in the source. -/
inductive CipherChoice where
  | ChaChaPoly
  | AESGCM
deriving DecidableEq

/-- Modelled from the spec: a successfully parsed handshake pattern
(from protocol_name, not under src) exposes per-role predicates saying
whether the given role needs a local static key and whether it must
already know the remote static public key; the role flag is the
initiator boolean used by the source. -/
structure HandshakePattern where
  needs_local_static_key : Bool → Bool
  need_known_remote_pubkey : Bool → Bool

/-- The deserialized protocol spec: the fields of NoiseParams the source
reads (handshake pattern and the three algorithm choices). -/
structure NoiseParams where
  handshake : HandshakePattern
  dh : DHChoice
  cipher : CipherChoice
  hash : HashChoice

/-- The CryptoResolver trait: four independent lookups, each returning an
implementation or none.  The implementation types are parameters, as the
trait objects are abstract to the builder. -/
structure CryptoResolver (R D H C : Type) where
  resolve_rng : Option R
  resolve_dh : DHChoice → Option D
  resolve_hash : HashChoice → Option H
  resolve_cipher : CipherChoice → Option C

/-- Modelled from the spec: a DH implementation accepts installation of a
caller-supplied private key (step 5 of the build sequence, the set call in
the source); set returns the instance with that key installed. -/
class DhType (D : Type) where
  set : D → Bytes → D

/-- Modelled from the spec: the Handshake State Machine records exactly
the arguments its constructor receives from the builder, in the order of
the HandshakeState::new call in the source (item 6 of the validation
sequence in the spec). -/
structure HandshakeState (R D H C : Type) where
  rng : R
  cipher : C
  hash : H
  s : D
  e : D
  rs : Bytes
  re : Bytes
  has_s : Bool
  has_e : Bool
  has_rs : Bool
  has_re : Bool
  initiator : Bool
  handshake : HandshakePattern
  prologue : Bytes
  psk : Option Bytes
  cipherstate1 : C
  cipherstate2 : C

/-- The builder struct from the source: protocol params, resolver, and the
six optional key-material fields. -/
structure NoiseBuilder (R D H C : Type) where
  params : NoiseParams
  resolver : CryptoResolver R D H C
  s : Option Bytes
  e : Option Bytes
  rs : Option Bytes
  re : Option Bytes
  psk : Option Bytes
  plog : Option Bytes

/-- Modelled from the spec: the OS random source returned by the default
resolver; its internals are out of scope, so it is a tag value. -/
inductive RandomOs where
  | default
deriving DecidableEq

/-- Modelled from the spec: the Curve25519 DH implementation returned by
the default resolver; for this development only its private-key slot
matters (the spec installs supplied keys into it). -/
structure Dh25519 where
  privkey : Bytes := List.replicate 32 0
deriving DecidableEq

instance : DhType Dh25519 where
  set d k := { d with privkey := k }

/-- Modelled from the spec: the hash implementations of the default
resolver, as tag values (their internals are out of scope). -/
inductive HashImpl where
  | HashSHA256
  | HashSHA512
  | HashBLAKE2s
  | HashBLAKE2b
deriving DecidableEq

/-- Modelled from the spec: the cipher-state implementations of the
default resolver, as tag values (their internals are out of scope). -/
inductive CipherImpl where
  | CipherChaChaPoly
  | CipherAESGCM
deriving DecidableEq

/-- DefaultResolver from the source: RNG always available, DH only for
Curve25519 (catch-all arm returns none), all four hashes, both ciphers. -/
def DefaultResolver : CryptoResolver RandomOs Dh25519 HashImpl CipherImpl where
  resolve_rng := some RandomOs.default
  resolve_dh choice :=
    match choice with
    | DHChoice.Curve25519 => some {}
    | _ => none
  resolve_hash choice :=
    match choice with
    | HashChoice.SHA256 => some HashImpl.HashSHA256
    | HashChoice.SHA512 => some HashImpl.HashSHA512
    | HashChoice.Blake2s => some HashImpl.HashBLAKE2s
    | HashChoice.Blake2b => some HashImpl.HashBLAKE2b
  resolve_cipher choice :=
    match choice with
    | CipherChoice.ChaChaPoly => some CipherImpl.CipherChaChaPoly
    | CipherChoice.AESGCM => some CipherImpl.CipherAESGCM

namespace NoiseBuilder

variable {R D H C : Type}

/-- NoiseBuilder::with_resolver: all six key-material fields start empty. -/
def with_resolver (params : NoiseParams) (resolver : CryptoResolver R D H C) :
    NoiseBuilder R D H C :=
  { params := params, resolver := resolver,
    s := none, e := none, rs := none, re := none, plog := none, psk := none }

/-- NoiseBuilder::new: with_resolver applied to the default resolver. -/
def new (params : NoiseParams) :
    NoiseBuilder RandomOs Dh25519 HashImpl CipherImpl :=
  with_resolver params DefaultResolver

/-- NoiseBuilder::preshared_key: stores a copy of the bytes in psk. -/
def preshared_key (self : NoiseBuilder R D H C) (key : Bytes) :
    NoiseBuilder R D H C :=
  { self with psk := some key }

/-- NoiseBuilder::local_private_key: stores the bytes in s. -/
def local_private_key (self : NoiseBuilder R D H C) (key : Bytes) :
    NoiseBuilder R D H C :=
  { self with s := some key }

/-- NoiseBuilder::prologue: stores a copy of the bytes in plog. -/
def prologue (self : NoiseBuilder R D H C) (key : Bytes) :
    NoiseBuilder R D H C :=
  { self with plog := some key }

/-- NoiseBuilder::remote_public_key: stores a copy of the bytes in rs. -/
def remote_public_key (self : NoiseBuilder R D H C) (pub_key : Bytes) :
    NoiseBuilder R D H C :=
  { self with rs := some pub_key }

/-- NoiseBuilder::build, translated check for check: the two structural
key checks, then resolution of rng, cipher, hash, two DH instances and
two further cipher instances in source order, then key installation, then
the HandshakeState constructor call.  The source passes a zero-length
prologue slice and None for the psk argument at the constructor call. -/
def build [DhType D] (self : NoiseBuilder R D H C) (initiator : Bool) :
    Except NoiseError (HandshakeState R D H C) :=
  if !self.s.isSome && self.params.handshake.needs_local_static_key initiator then
    Except.error (NoiseError.InitError ("local key needed for chosen handshake pattern"))
  else if !self.rs.isSome && self.params.handshake.need_known_remote_pubkey initiator then
    Except.error (NoiseError.InitError ("remote key needed for chosen handshake pattern"))
  else
    match self.resolver.resolve_rng with
    | none => Except.error (NoiseError.InitError ("no suitable RNG"))
    | some rng =>
      match self.resolver.resolve_cipher self.params.cipher with
      | none => Except.error (NoiseError.InitError ("no suitable cipher implementation"))
      | some cipher =>
        match self.resolver.resolve_hash self.params.hash with
        | none => Except.error (NoiseError.InitError ("no suitable hash implementation"))
        | some hash =>
          match self.resolver.resolve_dh self.params.dh with
          | none => Except.error (NoiseError.InitError ("no suitable DH implementation"))
          | some s0 =>
            match self.resolver.resolve_dh self.params.dh with
            | none => Except.error (NoiseError.InitError ("no suitable DH implementation"))
            | some e0 =>
              match self.resolver.resolve_cipher self.params.cipher with
              | none => Except.error (NoiseError.InitError ("no suitable cipher implementation"))
              | some cipherstate1 =>
                match self.resolver.resolve_cipher self.params.cipher with
                | none => Except.error (NoiseError.InitError ("no suitable cipher implementation"))
                | some cipherstate2 =>
                  Except.ok
                    { rng := rng, cipher := cipher, hash := hash,
                      s := match self.s with
                           | some s_key => DhType.set s0 s_key
                           | none => s0,
                      e := match self.e with
                           | some e_key => DhType.set e0 e_key
                           | none => e0,
                      rs := self.rs.getD [],
                      re := self.re.getD [],
                      has_s := self.s.isSome, has_e := self.e.isSome,
                      has_rs := self.rs.isSome, has_re := self.re.isSome,
                      initiator := initiator,
                      handshake := self.params.handshake,
                      prologue := [],
                      psk := none,
                      cipherstate1 := cipherstate1, cipherstate2 := cipherstate2 }

/-- NoiseBuilder::build_initiator. -/
def build_initiator [DhType D] (self : NoiseBuilder R D H C) :
    Except NoiseError (HandshakeState R D H C) :=
  self.build true

/-- NoiseBuilder::build_responder. -/
def build_responder [DhType D] (self : NoiseBuilder R D H C) :
    Except NoiseError (HandshakeState R D H C) :=
  self.build false

end NoiseBuilder

/-- The builders reachable through the public construction API: new or
with_resolver followed by any sequence of the four public setters (new is
definitionally with_resolver applied to the default resolver, so the
with_resolver case covers it). -/
inductive ReachableBuilder {R D H C : Type} : NoiseBuilder R D H C → Prop where
  | with_resolver (params : NoiseParams) (resolver : CryptoResolver R D H C) :
      ReachableBuilder (NoiseBuilder.with_resolver params resolver)
  | preshared_key {b : NoiseBuilder R D H C} (key : Bytes) :
      ReachableBuilder b → ReachableBuilder (b.preshared_key key)
  | local_private_key {b : NoiseBuilder R D H C} (key : Bytes) :
      ReachableBuilder b → ReachableBuilder (b.local_private_key key)
  | prologue {b : NoiseBuilder R D H C} (key : Bytes) :
      ReachableBuilder b → ReachableBuilder (b.prologue key)
  | remote_public_key {b : NoiseBuilder R D H C} (key : Bytes) :
      ReachableBuilder b → ReachableBuilder (b.remote_public_key key)


namespace NoiseBuilder

/-- build_initiator delegates to build with the initiator role flag. -/
theorem build_initiator_eq_build {R D H C : Type} [DhType D] (b : NoiseBuilder R D H C) :
    b.build_initiator = b.build true := rfl

/-- build_responder delegates to build with the responder role flag. -/
theorem build_responder_eq_build {R D H C : Type} [DhType D] (b : NoiseBuilder R D H C) :
    b.build_responder = b.build false := rfl

/-- When the first structural check fires, build fails with the local-key
message, whatever the resolver does. -/
theorem build_err_local {R D H C : Type} [DhType D] (b : NoiseBuilder R D H C) (role : Bool)
    (h1 : (!b.s.isSome && b.params.handshake.needs_local_static_key role) = true) :
    b.build role =
      Except.error (NoiseError.InitError ("local key needed for chosen handshake pattern")) := by
  unfold build
  exact if_pos h1

/-- When the first structural check passes and the second fires, build
fails with the remote-key message, whatever the resolver does. -/
theorem build_err_remote {R D H C : Type} [DhType D] (b : NoiseBuilder R D H C) (role : Bool)
    (h1 : (!b.s.isSome && b.params.handshake.needs_local_static_key role) = false)
    (h2 : (!b.rs.isSome && b.params.handshake.need_known_remote_pubkey role) = true) :
    b.build role =
      Except.error (NoiseError.InitError ("remote key needed for chosen handshake pattern")) := by
  have n1 : ¬((!b.s.isSome && b.params.handshake.needs_local_static_key role) = true) := by
    rw [h1]; decide
  unfold build
  rw [if_neg n1]
  exact if_pos h2

/-- When both structural checks pass and the RNG does not resolve, build
fails naming the RNG. -/
theorem build_err_rng {R D H C : Type} [DhType D] (b : NoiseBuilder R D H C) (role : Bool)
    (h1 : (!b.s.isSome && b.params.handshake.needs_local_static_key role) = false)
    (h2 : (!b.rs.isSome && b.params.handshake.need_known_remote_pubkey role) = false)
    (hr : b.resolver.resolve_rng = none) :
    b.build role = Except.error (NoiseError.InitError ("no suitable RNG")) := by
  have n1 : ¬((!b.s.isSome && b.params.handshake.needs_local_static_key role) = true) := by
    rw [h1]; decide
  have n2 : ¬((!b.rs.isSome && b.params.handshake.need_known_remote_pubkey role) = true) := by
    rw [h2]; decide
  unfold build
  rw [if_neg n1, if_neg n2, hr]

/-- When the structural checks pass, the RNG resolves and the cipher does
not, build fails naming the cipher. -/
theorem build_err_cipher {R D H C : Type} [DhType D] (b : NoiseBuilder R D H C) (role : Bool)
    (h1 : (!b.s.isSome && b.params.handshake.needs_local_static_key role) = false)
    (h2 : (!b.rs.isSome && b.params.handshake.need_known_remote_pubkey role) = false)
    (r : R) (hr : b.resolver.resolve_rng = some r)
    (hc : b.resolver.resolve_cipher b.params.cipher = none) :
    b.build role = Except.error (NoiseError.InitError ("no suitable cipher implementation")) := by
  have n1 : ¬((!b.s.isSome && b.params.handshake.needs_local_static_key role) = true) := by
    rw [h1]; decide
  have n2 : ¬((!b.rs.isSome && b.params.handshake.need_known_remote_pubkey role) = true) := by
    rw [h2]; decide
  unfold build
  rw [if_neg n1, if_neg n2, hr, hc]

/-- When the structural checks pass, RNG and cipher resolve and the hash
does not, build fails naming the hash. -/
theorem build_err_hash {R D H C : Type} [DhType D] (b : NoiseBuilder R D H C) (role : Bool)
    (h1 : (!b.s.isSome && b.params.handshake.needs_local_static_key role) = false)
    (h2 : (!b.rs.isSome && b.params.handshake.need_known_remote_pubkey role) = false)
    (r : R) (hr : b.resolver.resolve_rng = some r)
    (c : C) (hc : b.resolver.resolve_cipher b.params.cipher = some c)
    (hh : b.resolver.resolve_hash b.params.hash = none) :
    b.build role = Except.error (NoiseError.InitError ("no suitable hash implementation")) := by
  have n1 : ¬((!b.s.isSome && b.params.handshake.needs_local_static_key role) = true) := by
    rw [h1]; decide
  have n2 : ¬((!b.rs.isSome && b.params.handshake.need_known_remote_pubkey role) = true) := by
    rw [h2]; decide
  unfold build
  rw [if_neg n1, if_neg n2, hr, hc, hh]

/-- When the structural checks pass, RNG, cipher and hash resolve and the
DH group does not, build fails naming the DH implementation. -/
theorem build_err_dh {R D H C : Type} [DhType D] (b : NoiseBuilder R D H C) (role : Bool)
    (h1 : (!b.s.isSome && b.params.handshake.needs_local_static_key role) = false)
    (h2 : (!b.rs.isSome && b.params.handshake.need_known_remote_pubkey role) = false)
    (r : R) (hr : b.resolver.resolve_rng = some r)
    (c : C) (hc : b.resolver.resolve_cipher b.params.cipher = some c)
    (hsh : H) (hh : b.resolver.resolve_hash b.params.hash = some hsh)
    (hd : b.resolver.resolve_dh b.params.dh = none) :
    b.build role = Except.error (NoiseError.InitError ("no suitable DH implementation")) := by
  have n1 : ¬((!b.s.isSome && b.params.handshake.needs_local_static_key role) = true) := by
    rw [h1]; decide
  have n2 : ¬((!b.rs.isSome && b.params.handshake.need_known_remote_pubkey role) = true) := by
    rw [h2]; decide
  unfold build
  rw [if_neg n1, if_neg n2, hr, hc, hh, hd]

/-- When both structural checks pass and all four capabilities resolve,
build succeeds and the constructed HandshakeState is exactly the record
the source passes to HandshakeState::new. -/
theorem build_resolved {R D H C : Type} [DhType D] (b : NoiseBuilder R D H C) (role : Bool)
    (h1 : (!b.s.isSome && b.params.handshake.needs_local_static_key role) = false)
    (h2 : (!b.rs.isSome && b.params.handshake.need_known_remote_pubkey role) = false)
    (r : R) (hr : b.resolver.resolve_rng = some r)
    (c : C) (hc : b.resolver.resolve_cipher b.params.cipher = some c)
    (hsh : H) (hh : b.resolver.resolve_hash b.params.hash = some hsh)
    (d : D) (hd : b.resolver.resolve_dh b.params.dh = some d) :
    b.build role = Except.ok
      { rng := r, cipher := c, hash := hsh,
        s := match b.s with | some k => DhType.set d k | none => d,
        e := match b.e with | some k => DhType.set d k | none => d,
        rs := b.rs.getD [], re := b.re.getD [],
        has_s := b.s.isSome, has_e := b.e.isSome,
        has_rs := b.rs.isSome, has_re := b.re.isSome,
        initiator := role, handshake := b.params.handshake,
        prologue := [], psk := none,
        cipherstate1 := c, cipherstate2 := c } := by
  have n1 : ¬((!b.s.isSome && b.params.handshake.needs_local_static_key role) = true) := by
    rw [h1]; decide
  have n2 : ¬((!b.rs.isSome && b.params.handshake.need_known_remote_pubkey role) = true) := by
    rw [h2]; decide
  unfold build
  rw [if_neg n1, if_neg n2, hr, hc, hh, hd]

/-- Inversion: everything build guarantees about a successfully returned
HandshakeState, in terms of the builder fields. -/
theorem build_ok_char {R D H C : Type} [DhType D] (b : NoiseBuilder R D H C) (role : Bool)
    (st : HandshakeState R D H C) (h : b.build role = Except.ok st) :
    st.has_s = b.s.isSome ∧ st.has_e = b.e.isSome ∧ st.has_rs = b.rs.isSome ∧
    st.has_re = b.re.isSome ∧ st.rs = b.rs.getD [] ∧ st.re = b.re.getD [] ∧
    st.initiator = role ∧ st.handshake = b.params.handshake ∧
    st.prologue = [] ∧ st.psk = none ∧
    ∀ d : D, b.resolver.resolve_dh b.params.dh = some d →
      st.s = (match b.s with | some k => DhType.set d k | none => d) ∧
      st.e = (match b.e with | some k => DhType.set d k | none => d) := by
  cases hc1 : (!b.s.isSome && b.params.handshake.needs_local_static_key role) with
  | true => rw [build_err_local b role hc1] at h; exact Except.noConfusion h
  | false =>
  cases hc2 : (!b.rs.isSome && b.params.handshake.need_known_remote_pubkey role) with
  | true => rw [build_err_remote b role hc1 hc2] at h; exact Except.noConfusion h
  | false =>
  cases hr : b.resolver.resolve_rng with
  | none => rw [build_err_rng b role hc1 hc2 hr] at h; exact Except.noConfusion h
  | some r =>
  cases hcph : b.resolver.resolve_cipher b.params.cipher with
  | none => rw [build_err_cipher b role hc1 hc2 r hr hcph] at h; exact Except.noConfusion h
  | some c =>
  cases hh : b.resolver.resolve_hash b.params.hash with
  | none => rw [build_err_hash b role hc1 hc2 r hr c hcph hh] at h; exact Except.noConfusion h
  | some hsh =>
  cases hd : b.resolver.resolve_dh b.params.dh with
  | none => rw [build_err_dh b role hc1 hc2 r hr c hcph hsh hh hd] at h; exact Except.noConfusion h
  | some d0 =>
  rw [build_resolved b role hc1 hc2 r hr c hcph hsh hh d0 hd] at h
  injection h with h
  subst h
  refine ⟨rfl, rfl, rfl, rfl, rfl, rfl, rfl, rfl, rfl, rfl, ?_⟩
  intro d hd2
  obtain rfl : d = d0 := (Option.some.inj hd2).symm
  exact ⟨rfl, rfl⟩

end NoiseBuilder

/-- Modelled from the spec: the NN family pattern needs no static key and
no prior remote static key for either role (the simplest pattern of the
testable-properties section). -/
def patternNN : HandshakePattern where
  needs_local_static_key := fun _ => false
  need_known_remote_pubkey := fun _ => false

/-- Modelled from the spec: a pattern that requires a local static key
and prior knowledge of the remote static public key for both roles. -/
def patternKK : HandshakePattern where
  needs_local_static_key := fun _ => true
  need_known_remote_pubkey := fun _ => true

/-- Protocol parameters in the shape of Noise_NN_25519_ChaChaPoly_SHA256,
as used by the builder test of the source. -/
def paramsNN : NoiseParams where
  handshake := patternNN
  dh := DHChoice.Curve25519
  cipher := CipherChoice.ChaChaPoly
  hash := HashChoice.SHA256

/-- Protocol parameters on a pattern requiring both static keys. -/
def paramsKK : NoiseParams where
  handshake := patternKK
  dh := DHChoice.Curve25519
  cipher := CipherChoice.AESGCM
  hash := HashChoice.Blake2s

/-- The configuration of the test_builder test of the source: psk,
prologue and a 32-zero local private key set on the NN parameters. -/
def testBuilder : NoiseBuilder RandomOs Dh25519 HashImpl CipherImpl :=
  (((NoiseBuilder.new paramsNN).preshared_key [1, 1, 1, 1, 1, 1, 1]).prologue
      [2, 2, 2, 2, 2, 2, 2, 2]).local_private_key (List.replicate 32 0)

/-- The HandshakeState produced by building testBuilder as initiator. -/
def testResult : HandshakeState RandomOs Dh25519 HashImpl CipherImpl where
  rng := RandomOs.default
  cipher := CipherImpl.CipherChaChaPoly
  hash := HashImpl.HashSHA256
  s := { privkey := List.replicate 32 0 }
  e := {}
  rs := []
  re := []
  has_s := true
  has_e := false
  has_rs := false
  has_re := false
  initiator := true
  handshake := patternNN
  prologue := []
  psk := none
  cipherstate1 := CipherImpl.CipherChaChaPoly
  cipherstate2 := CipherImpl.CipherChaChaPoly

/-- Building the test configuration as initiator evaluates to testResult. -/
theorem testBuilder_build : testBuilder.build true = Except.ok testResult := rfl

instance : DhType Unit where
  set d _ := d

/-- A resolver that resolves none of the four capabilities, to exercise
the failure paths with. -/
def noneResolver : CryptoResolver Unit Unit Unit Unit where
  resolve_rng := none
  resolve_dh := fun _ => none
  resolve_hash := fun _ => none
  resolve_cipher := fun _ => none

/-- NN-shaped parameters carried by the builder over the none resolver. -/
def paramsNNu : NoiseParams where
  handshake := patternNN
  dh := DHChoice.Curve448
  cipher := CipherChoice.ChaChaPoly
  hash := HashChoice.SHA256

/-- KK-shaped parameters carried by the builder over the none resolver. -/
def paramsKKu : NoiseParams where
  handshake := patternKK
  dh := DHChoice.Curve25519
  cipher := CipherChoice.ChaChaPoly
  hash := HashChoice.SHA256

/-- A structurally valid configuration whose resolver resolves nothing. -/
def noneBuilder : NoiseBuilder Unit Unit Unit Unit :=
  NoiseBuilder.with_resolver paramsNNu noneResolver

/-- A configuration missing both required static keys, over the resolver
that resolves nothing. -/
def missingBuilder : NoiseBuilder Unit Unit Unit Unit :=
  NoiseBuilder.with_resolver paramsKKu noneResolver

/-- The same configuration with the local static key supplied but the
required remote static public key still missing. -/
def missingRemoteBuilder : NoiseBuilder Unit Unit Unit Unit :=
  missingBuilder.local_private_key [1]

/-- A configuration meeting all structural requirements of the
both-static-keys pattern, over the default resolver. -/
def goodBuilder : NoiseBuilder RandomOs Dh25519 HashImpl CipherImpl :=
  ((NoiseBuilder.new paramsKK).local_private_key [7]).remote_public_key [8]

/-- A structurally valid configuration over the default resolver whose DH
choice is not Curve25519. -/
def badDhBuilder : NoiseBuilder RandomOs Dh25519 HashImpl CipherImpl :=
  NoiseBuilder.new
    { handshake := patternNN, dh := DHChoice.Curve448,
      cipher := CipherChoice.ChaChaPoly, hash := HashChoice.SHA256 }

/-- C1: refuted on the code (code bug).  The claim says a successful build
constructs the Handshake State Machine with the caller-supplied prologue
and pre-shared key.  On the configuration of the test_builder test, which
sets both, build_initiator succeeds yet the HandshakeState receives an
empty prologue and no pre-shared key: build passes a zero-length slice
and None at the constructor call, dropping the stored plog and psk
fields. -/
theorem C1_build_drops_prologue_and_psk :
    testBuilder.plog = some [2, 2, 2, 2, 2, 2, 2, 2] ∧
    testBuilder.psk = some [1, 1, 1, 1, 1, 1, 1] ∧
    testBuilder.build_initiator = Except.ok testResult ∧
    testResult.prologue = [] ∧ testResult.psk = none :=
  ⟨rfl, rfl, rfl, rfl, rfl⟩

/-- C2: for every pattern and role, build returns a configuration error
when the pattern requires a local static key for the role and none was
supplied, or requires the remote static public key in advance and none
was supplied; and it succeeds when these structural requirements are met
and all four capabilities resolve. -/
theorem C2_structural_requirements {R D H C : Type} [DhType D]
    (b : NoiseBuilder R D H C) (role : Bool) :
    (((b.s = none ∧ b.params.handshake.needs_local_static_key role = true) ∨
      (b.rs = none ∧ b.params.handshake.need_known_remote_pubkey role = true)) →
      ∃ m, b.build role = Except.error (NoiseError.InitError m)) ∧
    (((b.params.handshake.needs_local_static_key role = true → b.s.isSome = true) ∧
      (b.params.handshake.need_known_remote_pubkey role = true → b.rs.isSome = true) ∧
      b.resolver.resolve_rng.isSome = true ∧
      (b.resolver.resolve_dh b.params.dh).isSome = true ∧
      (b.resolver.resolve_hash b.params.hash).isSome = true ∧
      (b.resolver.resolve_cipher b.params.cipher).isSome = true) →
      ∃ st, b.build role = Except.ok st) := by
  constructor
  · rintro (⟨hs0, hn⟩ | ⟨hr0, hn⟩)
    · exact ⟨_, NoiseBuilder.build_err_local b role (by rw [hs0, hn]; decide)⟩
    · by_cases hfirst : (!b.s.isSome && b.params.handshake.needs_local_static_key role) = true
      · exact ⟨_, NoiseBuilder.build_err_local b role hfirst⟩
      · have h1 : (!b.s.isSome && b.params.handshake.needs_local_static_key role) = false :=
          Bool.eq_false_iff.mpr hfirst
        exact ⟨_, NoiseBuilder.build_err_remote b role h1 (by rw [hr0, hn]; decide)⟩
  · rintro ⟨hns, hnr, hrng, hdh, hhash, hciph⟩
    have h1 : (!b.s.isSome && b.params.handshake.needs_local_static_key role) = false := by
      cases hn : b.params.handshake.needs_local_static_key role with
      | false => simp
      | true => rw [hns hn]; decide
    have h2 : (!b.rs.isSome && b.params.handshake.need_known_remote_pubkey role) = false := by
      cases hn : b.params.handshake.need_known_remote_pubkey role with
      | false => simp
      | true => rw [hnr hn]; decide
    obtain ⟨r, hr⟩ := Option.isSome_iff_exists.mp hrng
    obtain ⟨d, hd⟩ := Option.isSome_iff_exists.mp hdh
    obtain ⟨hsh, hh⟩ := Option.isSome_iff_exists.mp hhash
    obtain ⟨c, hc⟩ := Option.isSome_iff_exists.mp hciph
    exact ⟨_, NoiseBuilder.build_resolved b role h1 h2 r hr c hc hsh hh d hd⟩

/-- C2 witness: the builder missing both required static keys fails, and
the fully supplied configuration over the default resolver succeeds. -/
theorem C2_witness :
    (∃ m, missingBuilder.build true = Except.error (NoiseError.InitError m)) ∧
    (∃ st, goodBuilder.build true = Except.ok st) :=
  ⟨(C2_structural_requirements missingBuilder true).1 (Or.inl ⟨rfl, rfl⟩),
   (C2_structural_requirements goodBuilder true).2
     ⟨fun _ => rfl, fun _ => rfl, rfl, rfl, rfl, rfl⟩⟩

/-- C3: for every resolver and configuration meeting the structural key
requirements, an unsupported answer to any of the four capability queries
makes build return a configuration error whose message names a capability
the resolver indeed fails to resolve; build is a total function, so it
never panics. -/
theorem C3_missing_capability_error {R D H C : Type} [DhType D]
    (b : NoiseBuilder R D H C) (role : Bool)
    (hns : b.params.handshake.needs_local_static_key role = true → b.s.isSome = true)
    (hnr : b.params.handshake.need_known_remote_pubkey role = true → b.rs.isSome = true)
    (hmiss : b.resolver.resolve_rng = none ∨ b.resolver.resolve_dh b.params.dh = none ∨
             b.resolver.resolve_hash b.params.hash = none ∨
             b.resolver.resolve_cipher b.params.cipher = none) :
    ∃ m, b.build role = Except.error (NoiseError.InitError m) ∧
      ((m = "no suitable RNG" ∧ b.resolver.resolve_rng = none) ∨
       (m = "no suitable cipher implementation" ∧
         b.resolver.resolve_cipher b.params.cipher = none) ∨
       (m = "no suitable hash implementation" ∧
         b.resolver.resolve_hash b.params.hash = none) ∨
       (m = "no suitable DH implementation" ∧
         b.resolver.resolve_dh b.params.dh = none)) := by
  have h1 : (!b.s.isSome && b.params.handshake.needs_local_static_key role) = false := by
    cases hn : b.params.handshake.needs_local_static_key role with
    | false => simp
    | true => rw [hns hn]; decide
  have h2 : (!b.rs.isSome && b.params.handshake.need_known_remote_pubkey role) = false := by
    cases hn : b.params.handshake.need_known_remote_pubkey role with
    | false => simp
    | true => rw [hnr hn]; decide
  cases hr : b.resolver.resolve_rng with
  | none => exact ⟨_, NoiseBuilder.build_err_rng b role h1 h2 hr, Or.inl ⟨rfl, rfl⟩⟩
  | some r =>
  cases hc : b.resolver.resolve_cipher b.params.cipher with
  | none =>
    exact ⟨_, NoiseBuilder.build_err_cipher b role h1 h2 r hr hc, Or.inr (Or.inl ⟨rfl, rfl⟩)⟩
  | some c =>
  cases hh : b.resolver.resolve_hash b.params.hash with
  | none =>
    exact ⟨_, NoiseBuilder.build_err_hash b role h1 h2 r hr c hc hh,
      Or.inr (Or.inr (Or.inl ⟨rfl, rfl⟩))⟩
  | some hsh =>
  cases hd : b.resolver.resolve_dh b.params.dh with
  | none =>
    exact ⟨_, NoiseBuilder.build_err_dh b role h1 h2 r hr c hc hsh hh hd,
      Or.inr (Or.inr (Or.inr ⟨rfl, rfl⟩))⟩
  | some d =>
    exfalso
    rcases hmiss with hx | hx | hx | hx
    · rw [hx] at hr; exact Option.noConfusion hr
    · rw [hx] at hd; exact Option.noConfusion hd
    · rw [hx] at hh; exact Option.noConfusion hh
    · rw [hx] at hc; exact Option.noConfusion hc

/-- C3 witness: over the resolver that resolves nothing, the structurally
valid configuration fails with an error naming an unresolved capability. -/
theorem C3_witness :
    ∃ m, noneBuilder.build true = Except.error (NoiseError.InitError m) ∧
      ((m = "no suitable RNG" ∧ noneBuilder.resolver.resolve_rng = none) ∨
       (m = "no suitable cipher implementation" ∧
         noneBuilder.resolver.resolve_cipher noneBuilder.params.cipher = none) ∨
       (m = "no suitable hash implementation" ∧
         noneBuilder.resolver.resolve_hash noneBuilder.params.hash = none) ∨
       (m = "no suitable DH implementation" ∧
         noneBuilder.resolver.resolve_dh noneBuilder.params.dh = none)) :=
  C3_missing_capability_error noneBuilder true
    (fun h => Bool.noConfusion h) (fun h => Bool.noConfusion h) (Or.inl rfl)

/-- C4: the structural key checks run before any resolver query, so a
configuration missing a required key gets the corresponding missing-key
error for every resolver whatsoever: the missing-local-static check
first, then the missing-remote-static check. -/
theorem C4_fail_fast_ordering {R D H C : Type} [DhType D]
    (b : NoiseBuilder R D H C) (role : Bool) :
    ((b.s = none ∧ b.params.handshake.needs_local_static_key role = true) →
      b.build role =
        Except.error (NoiseError.InitError ("local key needed for chosen handshake pattern"))) ∧
    (((b.s.isSome = true ∨ b.params.handshake.needs_local_static_key role = false) ∧
      b.rs = none ∧ b.params.handshake.need_known_remote_pubkey role = true) →
      b.build role =
        Except.error (NoiseError.InitError ("remote key needed for chosen handshake pattern"))) := by
  constructor
  · rintro ⟨hs0, hn⟩
    exact NoiseBuilder.build_err_local b role (by rw [hs0, hn]; decide)
  · rintro ⟨hfirst, hr0, hn⟩
    have h1 : (!b.s.isSome && b.params.handshake.needs_local_static_key role) = false := by
      rcases hfirst with h | h
      · rw [h]; simp
      · rw [h]; simp
    exact NoiseBuilder.build_err_remote b role h1 (by rw [hr0, hn]; decide)

/-- C4 witness: over the resolver that resolves nothing, the builder
missing both keys reports the missing local key, and after supplying the
local key it reports the missing remote key. -/
theorem C4_witness :
    missingBuilder.build true =
      Except.error (NoiseError.InitError ("local key needed for chosen handshake pattern")) ∧
    missingRemoteBuilder.build false =
      Except.error (NoiseError.InitError ("remote key needed for chosen handshake pattern")) :=
  ⟨(C4_fail_fast_ordering missingBuilder true).1 ⟨rfl, rfl⟩,
   (C4_fail_fast_ordering missingRemoteBuilder false).2 ⟨Or.inl rfl, rfl, rfl⟩⟩

/-- C5: whenever build succeeds, the four presence flags handed to the
Handshake State Machine equal exactly whether the corresponding key slot
of the builder was supplied, independently of the bytes stored there, and
an unsupplied remote static or remote ephemeral public key is passed as
an empty byte string. -/
theorem C5_presence_flags {R D H C : Type} [DhType D] (b : NoiseBuilder R D H C)
    (role : Bool) (st : HandshakeState R D H C) (h : b.build role = Except.ok st) :
    st.has_s = b.s.isSome ∧ st.has_e = b.e.isSome ∧ st.has_rs = b.rs.isSome ∧
    st.has_re = b.re.isSome ∧ st.rs = b.rs.getD [] ∧ st.re = b.re.getD [] ∧
    (b.rs = none → st.rs = []) ∧ (b.re = none → st.re = []) := by
  obtain ⟨e1, e2, e3, e4, e5, e6, -, -, -, -, -⟩ := NoiseBuilder.build_ok_char b role st h
  refine ⟨e1, e2, e3, e4, e5, e6, ?_, ?_⟩
  · intro hx; rw [e5, hx]; rfl
  · intro hx; rw [e6, hx]; rfl

/-- C5 witness: the test configuration, built as initiator. -/
theorem C5_witness :
    testResult.has_s = testBuilder.s.isSome ∧ testResult.has_e = testBuilder.e.isSome ∧
    testResult.has_rs = testBuilder.rs.isSome ∧ testResult.has_re = testBuilder.re.isSome ∧
    testResult.rs = testBuilder.rs.getD [] ∧ testResult.re = testBuilder.re.getD [] ∧
    (testBuilder.rs = none → testResult.rs = []) ∧
    (testBuilder.re = none → testResult.re = []) :=
  C5_presence_flags testBuilder true testResult testBuilder_build

/-- C6: during a successful build, a supplied local static private key is
installed into the DH instance resolved for the static slot and a
supplied local ephemeral private key into the one resolved for the
ephemeral slot, before the Handshake State Machine is constructed; an
unsupplied key leaves the corresponding DH instance as resolved. -/
theorem C6_key_installation {R D H C : Type} [DhType D] (b : NoiseBuilder R D H C)
    (role : Bool) (d : D) (hd : b.resolver.resolve_dh b.params.dh = some d)
    (st : HandshakeState R D H C) (h : b.build role = Except.ok st) :
    st.s = (match b.s with | some k => DhType.set d k | none => d) ∧
    st.e = (match b.e with | some k => DhType.set d k | none => d) :=
  (NoiseBuilder.build_ok_char b role st h).2.2.2.2.2.2.2.2.2.2 d hd

/-- C6 witness: on the test configuration the supplied 32-zero static key
is installed into the resolved Dh25519 instance and the untouched
ephemeral instance stays as resolved. -/
theorem C6_witness :
    testResult.s = (match testBuilder.s with
                    | some k => DhType.set ({} : Dh25519) k
                    | none => ({} : Dh25519)) ∧
    testResult.e = (match testBuilder.e with
                    | some k => DhType.set ({} : Dh25519) k
                    | none => ({} : Dh25519)) :=
  C6_key_installation testBuilder true {} rfl testResult testBuilder_build

/-- C7: each of the four configuration setters returns an updated builder
in which only its own field now holds the supplied bytes, while the
pattern, the resolver and every other key-material field are unchanged;
no validation is performed, so any byte string, the empty one included,
is accepted (the equations hold for every key). -/
theorem C7_setters_frame {R D H C : Type} (b : NoiseBuilder R D H C) (key : Bytes) :
    ((b.preshared_key key).psk = some key ∧ (b.preshared_key key).params = b.params ∧
     (b.preshared_key key).resolver = b.resolver ∧ (b.preshared_key key).s = b.s ∧
     (b.preshared_key key).e = b.e ∧ (b.preshared_key key).rs = b.rs ∧
     (b.preshared_key key).re = b.re ∧ (b.preshared_key key).plog = b.plog) ∧
    ((b.local_private_key key).s = some key ∧ (b.local_private_key key).params = b.params ∧
     (b.local_private_key key).resolver = b.resolver ∧ (b.local_private_key key).e = b.e ∧
     (b.local_private_key key).rs = b.rs ∧ (b.local_private_key key).re = b.re ∧
     (b.local_private_key key).psk = b.psk ∧ (b.local_private_key key).plog = b.plog) ∧
    ((b.prologue key).plog = some key ∧ (b.prologue key).params = b.params ∧
     (b.prologue key).resolver = b.resolver ∧ (b.prologue key).s = b.s ∧
     (b.prologue key).e = b.e ∧ (b.prologue key).rs = b.rs ∧
     (b.prologue key).re = b.re ∧ (b.prologue key).psk = b.psk) ∧
    ((b.remote_public_key key).rs = some key ∧ (b.remote_public_key key).params = b.params ∧
     (b.remote_public_key key).resolver = b.resolver ∧ (b.remote_public_key key).s = b.s ∧
     (b.remote_public_key key).e = b.e ∧ (b.remote_public_key key).re = b.re ∧
     (b.remote_public_key key).psk = b.psk ∧ (b.remote_public_key key).plog = b.plog) :=
  ⟨⟨rfl, rfl, rfl, rfl, rfl, rfl, rfl, rfl⟩, ⟨rfl, rfl, rfl, rfl, rfl, rfl, rfl, rfl⟩,
   ⟨rfl, rfl, rfl, rfl, rfl, rfl, rfl, rfl⟩, ⟨rfl, rfl, rfl, rfl, rfl, rfl, rfl, rfl⟩⟩

/-- C7 witness: the empty byte string is accepted by the setters. -/
theorem C7_witness :
    (testBuilder.preshared_key []).psk = some ([] : Bytes) ∧
    (testBuilder.remote_public_key []).rs = some ([] : Bytes) :=
  ⟨(C7_setters_frame testBuilder []).1.1, (C7_setters_frame testBuilder []).2.2.2.1⟩

/-- C8: the default resolver supports one DH group (Curve25519), more
than two hash functions (four pairwise distinct ones) and two AEAD
ciphers: each such resolve query returns an implementation. -/
theorem C8_default_resolver_support :
    DefaultResolver.resolve_rng.isSome = true ∧
    (DefaultResolver.resolve_dh DHChoice.Curve25519).isSome = true ∧
    (DefaultResolver.resolve_hash HashChoice.SHA256).isSome = true ∧
    (DefaultResolver.resolve_hash HashChoice.SHA512).isSome = true ∧
    (DefaultResolver.resolve_hash HashChoice.Blake2s).isSome = true ∧
    (DefaultResolver.resolve_hash HashChoice.Blake2b).isSome = true ∧
    (DefaultResolver.resolve_cipher CipherChoice.ChaChaPoly).isSome = true ∧
    (DefaultResolver.resolve_cipher CipherChoice.AESGCM).isSome = true ∧
    2 < [HashChoice.SHA256, HashChoice.SHA512, HashChoice.Blake2s, HashChoice.Blake2b].length ∧
    [HashChoice.SHA256, HashChoice.SHA512, HashChoice.Blake2s, HashChoice.Blake2b].Nodup ∧
    CipherChoice.ChaChaPoly ≠ CipherChoice.AESGCM := by
  decide

/-- C9: through the public construction API the local ephemeral and
remote ephemeral slots are never populated, so every successfully built
Handshake State Machine gets has-local-ephemeral and has-remote-ephemeral
false, an empty remote-ephemeral byte string, and its ephemeral DH
instance exactly as resolved, with no key installed. -/
theorem C9_ephemeral_never_populated {R D H C : Type} [DhType D]
    (b : NoiseBuilder R D H C) (hb : ReachableBuilder b) :
    b.e = none ∧ b.re = none ∧
    ∀ (role : Bool) (st : HandshakeState R D H C), b.build role = Except.ok st →
      st.has_e = false ∧ st.has_re = false ∧ st.re = [] ∧
      ∀ d : D, b.resolver.resolve_dh b.params.dh = some d → st.e = d := by
  have he : b.e = none ∧ b.re = none := by
    induction hb with
    | with_resolver params resolver => exact ⟨rfl, rfl⟩
    | preshared_key key _ ih => exact ih
    | local_private_key key _ ih => exact ih
    | prologue key _ ih => exact ih
    | remote_public_key key _ ih => exact ih
  refine ⟨he.1, he.2, ?_⟩
  intro role st h
  obtain ⟨-, e2, -, e4, -, e6, -, -, -, -, edh⟩ := NoiseBuilder.build_ok_char b role st h
  refine ⟨?_, ?_, ?_, ?_⟩
  · rw [e2, he.1]; rfl
  · rw [e4, he.2]; rfl
  · rw [e6, he.2]; rfl
  · intro d hd
    rw [(edh d hd).2, he.1]

/-- C9 witness: the test configuration is reachable through the public
API and its build leaves both ephemeral slots unpopulated. -/
theorem C9_witness :
    testBuilder.e = none ∧ testBuilder.re = none ∧
    (testResult.has_e = false ∧ testResult.has_re = false ∧ testResult.re = [] ∧
     testResult.e = ({} : Dh25519)) := by
  have hreach : ReachableBuilder testBuilder :=
    ReachableBuilder.local_private_key _
      (ReachableBuilder.prologue _
        (ReachableBuilder.preshared_key _
          (ReachableBuilder.with_resolver paramsNN DefaultResolver)))
  have H := C9_ephemeral_never_populated testBuilder hreach
  have H2 := H.2.2 true testResult testBuilder_build
  exact ⟨H.1, H.2.1, H2.1, H2.2.1, H2.2.2.1, H2.2.2.2 {} rfl⟩

/-- C10: the default resolver always resolves the RNG, resolves every
hash and cipher choice, and resolves a DH choice exactly when it is
Curve25519; hence over the default resolver a structurally valid build
can only fail at the DH resolution, and does so exactly for the
non-Curve25519 choices. -/
theorem C10_default_resolver_only_dh_fails (choice : DHChoice) :
    DefaultResolver.resolve_rng.isSome = true ∧
    (DefaultResolver.resolve_hash HashChoice.SHA256).isSome = true ∧
    (DefaultResolver.resolve_hash HashChoice.SHA512).isSome = true ∧
    (DefaultResolver.resolve_hash HashChoice.Blake2s).isSome = true ∧
    (DefaultResolver.resolve_hash HashChoice.Blake2b).isSome = true ∧
    (DefaultResolver.resolve_cipher CipherChoice.ChaChaPoly).isSome = true ∧
    (DefaultResolver.resolve_cipher CipherChoice.AESGCM).isSome = true ∧
    ((DefaultResolver.resolve_dh choice).isSome = true ↔ choice = DHChoice.Curve25519) ∧
    ∀ (b : NoiseBuilder RandomOs Dh25519 HashImpl CipherImpl) (role : Bool),
      b.resolver = DefaultResolver →
      (b.params.handshake.needs_local_static_key role = true → b.s.isSome = true) →
      (b.params.handshake.need_known_remote_pubkey role = true → b.rs.isSome = true) →
      ((b.params.dh = DHChoice.Curve25519 → ∃ st, b.build role = Except.ok st) ∧
       (b.params.dh ≠ DHChoice.Curve25519 →
         b.build role =
           Except.error (NoiseError.InitError ("no suitable DH implementation")))) := by
  refine ⟨rfl, rfl, rfl, rfl, rfl, rfl, rfl, ?_, ?_⟩
  · cases choice <;> simp [DefaultResolver]
  · intro b role hres hns hnr
    have h1 : (!b.s.isSome && b.params.handshake.needs_local_static_key role) = false := by
      cases hn : b.params.handshake.needs_local_static_key role with
      | false => simp
      | true => rw [hns hn]; decide
    have h2 : (!b.rs.isSome && b.params.handshake.need_known_remote_pubkey role) = false := by
      cases hn : b.params.handshake.need_known_remote_pubkey role with
      | false => simp
      | true => rw [hnr hn]; decide
    have hr : b.resolver.resolve_rng = some RandomOs.default := by rw [hres]; rfl
    have hcs : (b.resolver.resolve_cipher b.params.cipher).isSome = true := by
      rw [hres]; cases b.params.cipher <;> rfl
    obtain ⟨c, hc⟩ := Option.isSome_iff_exists.mp hcs
    have hhs : (b.resolver.resolve_hash b.params.hash).isSome = true := by
      rw [hres]; cases b.params.hash <;> rfl
    obtain ⟨hsh, hh⟩ := Option.isSome_iff_exists.mp hhs
    constructor
    · intro hdh
      have hd : b.resolver.resolve_dh b.params.dh = some {} := by rw [hres, hdh]; rfl
      exact ⟨_, NoiseBuilder.build_resolved b role h1 h2 RandomOs.default hr c hc hsh hh {} hd⟩
    · intro hne
      have hd : b.resolver.resolve_dh b.params.dh = none := by
        rw [hres]
        cases hx : b.params.dh with
        | Curve25519 => exact absurd hx hne
        | Curve448 => rfl
      exact NoiseBuilder.build_err_dh b role h1 h2 RandomOs.default hr c hc hsh hh hd

/-- C10 witness: Curve448 does not resolve, and the structurally valid
configuration over the default resolver with the Curve448 choice fails
naming the DH implementation. -/
theorem C10_witness :
    ((DefaultResolver.resolve_dh DHChoice.Curve448).isSome = true ↔
      DHChoice.Curve448 = DHChoice.Curve25519) ∧
    badDhBuilder.build true =
      Except.error (NoiseError.InitError ("no suitable DH implementation")) := by
  refine ⟨(C10_default_resolver_only_dh_fails DHChoice.Curve448).2.2.2.2.2.2.2.1, ?_⟩
  have H := (C10_default_resolver_only_dh_fails DHChoice.Curve448).2.2.2.2.2.2.2.2
      badDhBuilder true rfl (fun h => Bool.noConfusion h) (fun h => Bool.noConfusion h)
  exact H.2 (by decide)
